import Mathlib

/-!
Verification of the Ash desktop-robot repository.

This file gives a shallow embedding, in Lean, of the parts of the Ash
repository that its specification talks about:

* the ILI9486 SPI LCD driver (`src/lcd_spi_driver.py`): RGB888 → RGB565
  pixel packing, big-endian byte emission, chunked SPI bursts, the
  MADCTL rotation table, driver construction/GPIO backend selection,
  `display_image` and `clear`;
* the face display (`src/face_display.py`): `set_expression` guards;
* the orchestration loop (`src/main.py`): one conversational turn of
  `interaction_loop`, including quit phrases, the gesture-intent
  classifier `_analyze_gesture_from_input`, and the loop-level error
  handler.

Every definition is translated directly from the Python source; theorems
at the end of the file settle the specification's claims against these
definitions.
-/

set_option maxRecDepth 4000

namespace Ash

/-! ## Pixel codec (`ILI9486SPI.display_image`, lines 290-300)

The driver computes, per pixel,
`rgb565 = ((r >> 3) << 11) | ((g >> 2) << 5) | (b >> 3)`
on `uint16` values and serialises each word big-endian (`'>u2'`).
All channel values come from a `uint8` image array, hence lie in
`[0, 255]`, so none of the shifts can overflow 16 bits. -/

/-- RGB888 → RGB565 packing, exactly the numpy expression
`(r5 << 11) | (g6 << 5) | b5` with `r5 = r >> 3`, `g6 = g >> 2`,
`b5 = b >> 3`. -/
def rgb565 (r g b : Nat) : Nat :=
  ((r >>> 3) <<< 11) ||| ((g >>> 2) <<< 5) ||| (b >>> 3)

/-- Big-endian serialisation of one 16-bit word, as performed by
`pixel_data.astype('>u2').tobytes()`: high byte first. The `% 256`
mirrors the byte truncation of the dtype. -/
def be16 (v : Nat) : List Nat :=
  [v / 256 % 256, v % 256]

/-- The two bytes emitted for one RGB pixel. -/
def pixBytes (p : Nat × Nat × Nat) : List Nat :=
  be16 (rgb565 p.1 p.2.1 p.2.2)

/-! ## SPI chunking (`display_image`, lines 302-310)

`for i in range(0, len(byte_data), chunk_size): self.spi.xfer2(byte_data[i:i+chunk_size])`
with `chunk_size = 4096`. -/

/-- The transfer ceiling used by `display_image` (`chunk_size = 4096`). -/
def chunkSize : Nat := 4096

/-- Split a byte stream into the successive `xfer2` bursts emitted by
`display_image`: each burst is the next `chunkSize`-byte slice. -/
def sendChunks : List Nat → List (List Nat)
  | [] => []
  | a :: rest => ((a :: rest).take chunkSize) :: sendChunks ((a :: rest).drop chunkSize)
  termination_by l => l.length
  decreasing_by
    simp only [List.length_drop, List.length_cons, chunkSize]
    omega

/-! ## Images and `display_image` output

A PIL RGB image is modelled by its dimensions and a pixel function;
`np.array(image)` yields a `height × width × 3` array, and `.flatten()`
walks it in row-major order (row `y = 0` first, within a row
`x = 0, 1, ...`). -/

/-- An RGB image: dimensions plus a pixel function `pix x y`. -/
structure Img where
  width : Nat
  height : Nat
  pix : Nat → Nat → Nat × Nat × Nat

/-- The image's pixels in row-major order, as produced by flattening the
`height × width` numpy array. -/
def imageRows (img : Img) : List (Nat × Nat × Nat) :=
  ((List.range img.height).map
    (fun y => (List.range img.width).map (fun x => img.pix x y))).flatten

/-- The full pixel byte stream of an image: two big-endian bytes per
pixel, pixels in row-major order. -/
def pixelStream (img : Img) : List Nat :=
  ((imageRows img).map pixBytes).flatten

/-- Observable output of one `display_image` call: the addressed window,
whether the resize branch ran, the pixel byte stream, and the chunked
SPI bursts. `rs` stands in for `Image.resize(..., LANCZOS)`, which is
only invoked when the image size differs from the panel size. -/
structure DisplayOut where
  window : Nat × Nat × Nat × Nat
  resized : Bool
  stream : List Nat
  bursts : List (List Nat)
deriving DecidableEq

/-- `ILI9486SPI.display_image` (lines 271-310): resize if the size
differs, set the full window `(0, 0, width-1, height-1)`, stream the
RGB565 bytes, send them in `chunkSize` bursts. -/
def displayImageOut (w h : Nat) (rs : Img → Img) (img : Img) : DisplayOut :=
  let img2 := if img.width = w ∧ img.height = h then img else rs img
  { window := (0, 0, w - 1, h - 1)
    resized := decide (¬(img.width = w ∧ img.height = h))
    stream := pixelStream img2
    bursts := sendChunks (pixelStream img2) }

/-- `Image.new('RGB', (width, height), color)`: a solid frame. -/
def solidImage (w h : Nat) (c : Nat × Nat × Nat) : Img :=
  ⟨w, h, fun _ _ => c⟩

/-- `ILI9486SPI.clear` (lines 312-316): build a solid panel-sized frame
and delegate to `display_image`. -/
def clearOut (w h : Nat) (rs : Img → Img) (c : Nat × Nat × Nat) : DisplayOut :=
  displayImageOut w h rs (solidImage w h c)

/-! ## Display initialisation (`ILI9486SPI._init_display`, lines 211-256) -/

def CMD_SWRESET : Nat := 0x01
def CMD_SLPOUT : Nat := 0x11
def CMD_DISPON : Nat := 0x29
def CMD_CASET : Nat := 0x2A
def CMD_RASET : Nat := 0x2B
def CMD_RAMWR : Nat := 0x2C
def CMD_MADCTL : Nat := 0x36
def CMD_PIXFMT : Nat := 0x3A

/-- One SPI write with its DC-pin meaning: a command byte or a data
burst. -/
inductive SpiWrite
  | cmd (b : Nat)
  | data (bs : List Nat)
deriving DecidableEq

/-- `rotation_madctl.get(self.rotation, 0x28)` over the fixed dict
`{0: 0x08, 1: 0x28, 2: 0xC8, 3: 0xE8}`. -/
def rotationMadctl (rotation : Nat) : Nat :=
  if rotation = 0 then 0x08
  else if rotation = 1 then 0x28
  else if rotation = 2 then 0xC8
  else if rotation = 3 then 0xE8
  else 0x28

/-- The command/data writes issued by `_init_display`, in order (the
pure-delay `time.sleep` calls are omitted). -/
def initDisplayWrites (rotation : Nat) : List SpiWrite :=
  [.cmd CMD_SWRESET,
   .cmd CMD_SLPOUT,
   .cmd CMD_PIXFMT, .data [0x55],
   .cmd CMD_MADCTL, .data [rotationMadctl rotation],
   .cmd CMD_DISPON]

/-! ## Driver construction (`ILI9486SPI.__init__`, lines 52-175)

Module import time fixes `GPIO_AVAILABLE`/`USE_GPIOD`; the constructor
then either requests gpiod lines (raising `RuntimeError` when no GPIO
chip opens), falls back to `RPi.GPIO`, or raises
`RuntimeError("No GPIO library available...")`; afterwards
`spidev.SpiDev().open(...)` may raise the underlying OS error, which the
constructor does not catch. -/

/-- Python exception classes relevant to driver construction.
`initializationError` names the exception type the specification claims
(`InitializationError`); no class of that name exists anywhere in the
repository, and it is included here only so the claim can be stated and
compared against what the code actually raises. -/
inductive ExcType
  | initializationError
  | runtimeError
  | osError
deriving DecidableEq

/-- Which GPIO backend the constructor ends up using. -/
inductive GPIOBackendKind
  | gpiodBackend
  | rpiBackend
deriving DecidableEq

/-- Host capabilities probed during construction. -/
structure HostEnv where
  gpiodImportOk : Bool
  rpiImportOk : Bool
  chipOpens : Bool
  spiOpens : Bool
deriving DecidableEq

instance {ε α : Type} [DecidableEq ε] [DecidableEq α] : DecidableEq (Except ε α) :=
  fun x y =>
    match x, y with
    | .ok a, .ok b =>
        if h : a = b then isTrue (by rw [h]) else isFalse (by intro he; cases he; exact h rfl)
    | .error a, .error b =>
        if h : a = b then isTrue (by rw [h]) else isFalse (by intro he; cases he; exact h rfl)
    | .ok _, .error _ => isFalse (by intro he; cases he)
    | .error _, .ok _ => isFalse (by intro he; cases he)

/-- GPIO backend selection: gpiod if importable (raising `RuntimeError`
when no GPIO chip can be opened, line 147), else `RPi.GPIO`, else
`RuntimeError("No GPIO library available...")` (line 166). -/
def setupGPIO (env : HostEnv) : Except ExcType GPIOBackendKind :=
  if env.gpiodImportOk then
    if env.chipOpens then .ok .gpiodBackend
    else .error .runtimeError
  else if env.rpiImportOk then .ok .rpiBackend
  else .error .runtimeError

/-- `ILI9486SPI.__init__`: GPIO setup, then `self.spi.open(...)`, whose
failure propagates as the raw OS error (no try/except around it). -/
def constructDriver (env : HostEnv) : Except ExcType GPIOBackendKind :=
  match setupGPIO env with
  | .error e => .error e
  | .ok k => if env.spiOpens then .ok k else .error .osError

/-! ## Face display (`FaceDisplay`, `src/face_display.py`) -/

/-- `FaceDisplay.EXPRESSIONS` (lines 26-29). -/
def EXPRESSIONS : List String :=
  ["happy", "sad", "neutral", "listening", "speaking", "thinking", "error"]

/-- Which display backend `FaceDisplay` resolved at construction, with
the success/failure of the backend write baked in. -/
inductive FDBackend
  | framebuffer (writeOk : Bool)
  | spi (writeOk : Bool)
  | window (windowOk : Bool)
deriving DecidableEq

/-- The mutable `FaceDisplay` state touched by `set_expression`: the set
of loaded image names (`image_cache` keys) and `current_expression`. -/
structure FaceState where
  cache : List String
  current : Option String
deriving DecidableEq

/-- Observable result of one `set_expression` call: the returned Bool,
the state afterwards, and the expressions actually pushed to the
display. -/
structure SetExprResult where
  ok : Bool
  state : FaceState
  writes : List String
deriving DecidableEq

/-- `FaceDisplay.set_expression` (lines 156-206): reject unknown names,
reject names whose image is not cached, otherwise write via the resolved
backend. In simulation mode a window failure is swallowed: the call
still returns `True` and records the expression. -/
def setExpression (backend : FDBackend) (s : FaceState) (e : String) : SetExprResult :=
  if e ∉ EXPRESSIONS then ⟨false, s, []⟩
  else if e ∉ s.cache then ⟨false, s, []⟩
  else
    match backend with
    | .framebuffer true => ⟨true, { s with current := some e }, [e]⟩
    | .framebuffer false => ⟨false, s, []⟩
    | .spi true => ⟨true, { s with current := some e }, [e]⟩
    | .spi false => ⟨false, s, []⟩
    | .window ok => ⟨true, { s with current := some e }, if ok then [e] else []⟩

/-! ## Python strings

`String.trim`, `String.toLower` and friends in Lean core recurse on
byte positions with well-founded measures, which blocks kernel
evaluation; since Python strings are character sequences anyway, the
orchestration-loop embedding models them as `List Char`, with `lower`
and `strip` defined structurally. -/

/-- A Python string: its character sequence. -/
abbrev PyStr := List Char

/-- Python `str.lower()` (ASCII case mapping; all classifier keywords
and command words are ASCII). -/
def pyLower (s : PyStr) : PyStr := s.map Char.toLower

/-- Python `str.strip()`: drop leading and trailing whitespace. -/
def pyStrip (s : PyStr) : PyStr :=
  ((s.dropWhile Char.isWhitespace).reverse.dropWhile Char.isWhitespace).reverse

/-! ## Gesture-intent classifier
(`AshRobot._analyze_gesture_from_input`, `src/main.py` lines 112-141)

Python's `word in text` is raw substring containment; the question
category instead uses `text.startswith(word)` or `'?' in text`. -/

/-- `w` is a prefix of `t`, on character lists. -/
def isPre : List Char → List Char → Bool
  | [], _ => true
  | _ :: _, [] => false
  | a :: w, b :: t => a = b && isPre w t

/-- `w` occurs as a contiguous substring of `t` (Python `w in t`). -/
def subOf (w : List Char) : List Char → Bool
  | [] => isPre w []
  | b :: t => isPre w (b :: t) || subOf w t

/-- Python `word in text`. -/
def containsWord (text w : PyStr) : Bool := subOf w text

/-- Python `text.startswith(word)`. -/
def startsWithWord (text w : PyStr) : Bool := isPre w text

/-- Python `'?' in text`. -/
def hasQMark (text : PyStr) : Bool := text.contains '?'

def greetingWords : List PyStr :=
  (["hello", "hi", "hey", "greet", "wave", "say hello", "say hi"] :
    List String).map String.toList

def celebrationWords : List PyStr :=
  (["yay", "awesome", "great", "celebrate", "congratulations",
    "congrats", "hooray", "excellent", "amazing", "fantastic"] :
    List String).map String.toList

def questionWords : List PyStr :=
  (["what", "why", "how", "when", "where", "who", "explain", "tell me"] :
    List String).map String.toList

/-- `any(word in text for word in greeting_words)`. -/
def greetingMatch (text : PyStr) : Bool :=
  greetingWords.any (fun w => containsWord text w)

/-- `any(word in text for word in celebration_words)`. -/
def celebrationMatch (text : PyStr) : Bool :=
  celebrationWords.any (fun w => containsWord text w)

/-- `any(text.startswith(word) for word in question_words) or '?' in text`. -/
def questionMatch (text : PyStr) : Bool :=
  questionWords.any (fun w => startsWithWord text w) || hasQMark text

/-- The gesture each branch returns (`wave`, `arms_up`, `point`). -/
inductive Gesture
  | wave
  | armsUp
  | point
deriving DecidableEq

/-- `_analyze_gesture_from_input`: lowercase the input, then first match
wins in the order greeting → celebration → question → none. -/
def analyzeGesture (userInput : PyStr) : Option Gesture :=
  if greetingMatch (pyLower userInput) then some .wave
  else if celebrationMatch (pyLower userInput) then some .armsUp
  else if questionMatch (pyLower userInput) then some .point
  else none

/-! ## One turn of the interaction loop
(`AshRobot.interaction_loop`, `src/main.py` lines 215-325)

One iteration of the `while self.running` body in text-input mode,
parameterised by the raw input line and by the behaviour of the two
calls that the specification injects failures into: the model call
(`self.llm.ask`, THINKING phase) and speech playback
(`self.audio.speak(response)`, SPEAKING phase). Any of them can return
normally, raise an ordinary exception (caught by the loop's
`except Exception` handler: error face, spoken apology, 2 s delay,
loop continues), or raise `KeyboardInterrupt` (caught by the loop's
`except KeyboardInterrupt` handler, which stops the loop). -/

/-- Behaviour of an injected call site. -/
inductive Beh
  | ok
  | raiseExc
  | interrupt
deriving DecidableEq

/-- Whether the loop keeps running after the turn. -/
inductive Outcome
  | continueLoop
  | exitLoop
deriving DecidableEq

/-- Utterances spoken during a turn, by role. -/
inductive SpeakEvt
  | goodbye
  | response
  | apology
deriving DecidableEq

/-- Observable trace of one loop iteration: the expressions set on the
face display in order, the utterances spoken, whether `self.llm.ask` was
called, and whether the loop continues. -/
structure TurnTrace where
  exprs : List String
  spoken : List SpeakEvt
  askedLLM : Bool
  outcome : Outcome
deriving DecidableEq

/-- `"quit", "exit", "bye", "goodbye", "stop"` (line 255). -/
def quitWords : List PyStr :=
  (["quit", "exit", "bye", "goodbye", "stop"] : List String).map String.toList

/-- `"gestures", "demo", ...` (line 264). -/
def demoWords : List PyStr :=
  (["gestures", "demo", "show gestures", "test gestures", "demo gestures"] :
    List String).map String.toList

/-- Expressions set by `_demo_gestures` (lines 143-166), ending with the
final `set_expression("happy")`. -/
def demoFaces : List String :=
  ["neutral", "happy", "neutral", "thinking", "happy", "happy"]

/-- One iteration of `interaction_loop` in text mode. The input is
`input("You: ").strip()`; the command checks use
`user_input.lower().strip()`. -/
def runTurn (rawInput : PyStr) (llmB speakB : Beh) : TurnTrace :=
  if pyStrip rawInput = [] then
    ⟨["listening"], [], false, .continueLoop⟩
  else if pyStrip (pyLower (pyStrip rawInput)) = "text".toList
      ∨ pyStrip (pyLower (pyStrip rawInput)) = "voice".toList then
    ⟨["listening"], [], false, .continueLoop⟩
  else if pyStrip (pyLower (pyStrip rawInput)) ∈ quitWords then
    ⟨["listening", "happy"], [.goodbye], false, .exitLoop⟩
  else if pyStrip (pyLower (pyStrip rawInput)) ∈ demoWords then
    ⟨["listening"] ++ demoFaces, [], false, .continueLoop⟩
  else
    match llmB with
    | .interrupt => ⟨["listening", "thinking"], [], true, .exitLoop⟩
    | .raiseExc => ⟨["listening", "thinking", "error"], [.apology], true, .continueLoop⟩
    | .ok =>
      match speakB with
      | .interrupt => ⟨["listening", "thinking", "speaking"], [], true, .exitLoop⟩
      | .raiseExc =>
          ⟨["listening", "thinking", "speaking", "error"], [.apology], true, .continueLoop⟩
      | .ok => ⟨["listening", "thinking", "speaking", "happy"], [.response], true, .continueLoop⟩

/-- The turn reaches the THINKING phase: the input is non-empty and is
none of the mode-switch, quit or demo command words. -/
def reachesThinking (rawInput : PyStr) : Bool :=
  if pyStrip rawInput = [] then false
  else if pyStrip (pyLower (pyStrip rawInput)) = "text".toList
      ∨ pyStrip (pyLower (pyStrip rawInput)) = "voice".toList then false
  else if pyStrip (pyLower (pyStrip rawInput)) ∈ quitWords then false
  else if pyStrip (pyLower (pyStrip rawInput)) ∈ demoWords then false
  else true

/-! ## Helper lemmas -/

/-- The packed word in additive form: disjoint bit fields add. -/
theorem rgb565_eq_add {r g b : Nat} (hr : r ≤ 255) (hg : g ≤ 255) (hb : b ≤ 255) :
    rgb565 r g b = r / 8 * 2048 + g / 4 * 32 + b / 8 := by
  have e1 : r >>> 3 = r / 8 := by rw [Nat.shiftRight_eq_div_pow]
  have e2 : g >>> 2 = g / 4 := by rw [Nat.shiftRight_eq_div_pow]
  have e3 : b >>> 3 = b / 8 := by rw [Nat.shiftRight_eq_div_pow]
  have hb5 : b / 8 < 2 ^ 5 := by omega
  have h1 : (g / 4) * 2 ^ 5 ||| b / 8 = g / 4 * 32 + b / 8 := by
    calc (g / 4) * 2 ^ 5 ||| b / 8
        = 2 ^ 5 * (g / 4) ||| b / 8 := by rw [Nat.mul_comm]
      _ = 2 ^ 5 * (g / 4) + b / 8 := (Nat.mul_add_lt_is_or hb5 _).symm
      _ = g / 4 * 32 + b / 8 := by ring
  have hlt : g / 4 * 32 + b / 8 < 2 ^ 11 := by omega
  have h2 : (r / 8) * 2 ^ 11 ||| (g / 4 * 32 + b / 8)
      = r / 8 * 2048 + (g / 4 * 32 + b / 8) := by
    calc (r / 8) * 2 ^ 11 ||| (g / 4 * 32 + b / 8)
        = 2 ^ 11 * (r / 8) ||| (g / 4 * 32 + b / 8) := by rw [Nat.mul_comm]
      _ = 2 ^ 11 * (r / 8) + (g / 4 * 32 + b / 8) := (Nat.mul_add_lt_is_or hlt _).symm
      _ = r / 8 * 2048 + (g / 4 * 32 + b / 8) := by ring
  calc rgb565 r g b
      = ((r / 8) <<< 11) ||| (((g / 4) <<< 5) ||| (b / 8)) := by
        rw [rgb565, Nat.or_assoc, e1, e2, e3]
    _ = ((r / 8) * 2 ^ 11) ||| (((g / 4) * 2 ^ 5) ||| (b / 8)) := by
        rw [Nat.shiftLeft_eq, Nat.shiftLeft_eq]
    _ = ((r / 8) * 2 ^ 11) ||| (g / 4 * 32 + b / 8) := by rw [h1]
    _ = r / 8 * 2048 + (g / 4 * 32 + b / 8) := h2
    _ = r / 8 * 2048 + g / 4 * 32 + b / 8 := by ring

/-- Concatenating the bursts restores the original stream. -/
theorem sendChunks_flatten (l : List Nat) : (sendChunks l).flatten = l := by
  induction l using sendChunks.induct with
  | case1 => simp [sendChunks]
  | case2 a rest ih =>
    rw [sendChunks, List.flatten_cons, ih, List.take_append_drop]

/-- Every burst is at most `chunkSize` bytes. -/
theorem sendChunks_le (l : List Nat) : ∀ c ∈ sendChunks l, c.length ≤ chunkSize := by
  induction l using sendChunks.induct with
  | case1 => intro c hc; simp [sendChunks] at hc
  | case2 a rest ih =>
    intro c hc
    rw [sendChunks] at hc
    rcases List.mem_cons.mp hc with h | h
    · subst h
      rw [List.length_take]
      exact Nat.min_le_left _ _
    · exact ih c h

/-- The number of bursts is `⌈L / chunkSize⌉`. -/
theorem sendChunks_length (l : List Nat) :
    (sendChunks l).length = (l.length + (chunkSize - 1)) / chunkSize := by
  induction l using sendChunks.induct with
  | case1 => simp [sendChunks, chunkSize]
  | case2 a rest ih =>
    rw [sendChunks, List.length_cons, ih, List.length_drop]
    simp only [List.length_cons, chunkSize]
    omega

/-- Flattening a replicated replicate. -/
theorem flatten_replicate_replicate {α : Type} (n m : Nat) (c : α) :
    (List.replicate n (List.replicate m c)).flatten = List.replicate (n * m) c := by
  induction n with
  | zero => simp
  | succ k ih =>
    rw [List.replicate_succ, List.flatten_cons, ih,
      show (k + 1) * m = m + k * m by ring, List.replicate_add]

/-- A solid frame's row-major pixel list is one colour repeated. -/
theorem imageRows_solid (w h : Nat) (c : Nat × Nat × Nat) :
    imageRows (solidImage w h c) = List.replicate (h * w) c := by
  unfold imageRows solidImage
  simp only [List.map_const', List.length_range]
  exact flatten_replicate_replicate h w c

/-- A solid frame's byte stream is one pixel's bytes repeated. -/
theorem pixelStream_solid (w h : Nat) (c : Nat × Nat × Nat) :
    pixelStream (solidImage w h c) = (List.replicate (h * w) (pixBytes c)).flatten := by
  unfold pixelStream
  rw [imageRows_solid, List.map_replicate]

/-! ## Claims -/

/-- C1: for every RGB triple with channels in `[0, 255]`, the RGB565
word computed by `display_image` equals
`(r>>3)<<11 ||| (g>>2)<<5 ||| (b>>3)`; its top 5 bits equal `r>>3`, its
middle 6 bits `g>>2`, its bottom 5 bits `b>>3` (each channel truncated),
the word fits in 16 bits and is emitted as one big-endian 16-bit value
per pixel, pixels taken in row-major order. -/
theorem rgb565_word_correct (r g b : Nat)
    (hr : r ≤ 255) (hg : g ≤ 255) (hb : b ≤ 255) :
    rgb565 r g b = ((r >>> 3) <<< 11) ||| ((g >>> 2) <<< 5) ||| (b >>> 3)
    ∧ rgb565 r g b / 2048 = r >>> 3
    ∧ rgb565 r g b / 32 % 64 = g >>> 2
    ∧ rgb565 r g b % 32 = b >>> 3
    ∧ rgb565 r g b < 65536
    ∧ pixBytes (r, g, b) = [rgb565 r g b / 256, rgb565 r g b % 256]
    ∧ (∀ pf : Nat → Nat → Nat × Nat × Nat,
        imageRows ⟨2, 2, pf⟩ = [pf 0 0, pf 1 0, pf 0 1, pf 1 1]) := by
  have e1 : r >>> 3 = r / 8 := by rw [Nat.shiftRight_eq_div_pow]
  have e2 : g >>> 2 = g / 4 := by rw [Nat.shiftRight_eq_div_pow]
  have e3 : b >>> 3 = b / 8 := by rw [Nat.shiftRight_eq_div_pow]
  have hadd := rgb565_eq_add hr hg hb
  have hlt : rgb565 r g b < 65536 := by rw [hadd]; omega
  refine ⟨rfl, ?_, ?_, ?_, hlt, ?_, fun pf => rfl⟩
  · rw [hadd, e1]; omega
  · rw [hadd, e2]; omega
  · rw [hadd, e3]; omega
  · simp only [pixBytes, be16]
    have : rgb565 r g b / 256 % 256 = rgb565 r g b / 256 := by omega
    rw [this]

/-- Witness for C1 at the concrete triple `(250, 130, 9)`. -/
theorem rgb565_word_correct_witness :
    rgb565 250 130 9 = ((250 >>> 3) <<< 11) ||| ((130 >>> 2) <<< 5) ||| (9 >>> 3)
    ∧ rgb565 250 130 9 / 2048 = 250 >>> 3
    ∧ rgb565 250 130 9 / 32 % 64 = 130 >>> 2
    ∧ rgb565 250 130 9 % 32 = 9 >>> 3
    ∧ rgb565 250 130 9 < 65536
    ∧ pixBytes (250, 130, 9) = [rgb565 250 130 9 / 256, rgb565 250 130 9 % 256]
    ∧ (∀ pf : Nat → Nat → Nat × Nat × Nat,
        imageRows ⟨2, 2, pf⟩ = [pf 0 0, pf 1 0, pf 0 1, pf 1 1]) :=
  rgb565_word_correct 250 130 9 (by decide) (by decide) (by decide)

/-- C2: the MADCTL data byte written during initialization is 0x08,
0x28, 0xC8, 0xE8 for rotations 0, 1, 2, 3 and 0x28 for any other
rotation value; `_init_display` writes it immediately after the 0x36
command. -/
theorem madctl_rotation_table :
    rotationMadctl 0 = 0x08 ∧ rotationMadctl 1 = 0x28
    ∧ rotationMadctl 2 = 0xC8 ∧ rotationMadctl 3 = 0xE8
    ∧ (∀ rot : Nat, rot ∉ ([0, 1, 2, 3] : List Nat) → rotationMadctl rot = 0x28)
    ∧ (∀ rot : Nat, initDisplayWrites rot =
        [.cmd CMD_SWRESET, .cmd CMD_SLPOUT, .cmd CMD_PIXFMT, .data [0x55],
         .cmd CMD_MADCTL, .data [rotationMadctl rot], .cmd CMD_DISPON]) := by
  refine ⟨rfl, rfl, rfl, rfl, ?_, fun _ => rfl⟩
  intro rot h
  simp only [List.mem_cons, List.not_mem_nil, or_false, not_or] at h
  obtain ⟨h0, h1, h2, h3⟩ := h
  unfold rotationMadctl
  rw [if_neg h0, if_neg h1, if_neg h2, if_neg h3]

/-- Witness for C2 at the unrecognized rotation value 7. -/
theorem madctl_rotation_table_witness : rotationMadctl 7 = 0x28 :=
  madctl_rotation_table.2.2.2.2.1 7 (by decide)

/-- C3: for every pixel byte stream of length `L > 0` sent by
`display_image`, the driver emits exactly `⌈L / chunkSize⌉` SPI bursts,
each of at most `chunkSize` bytes, whose concatenation in emission order
is the original stream. -/
theorem display_chunking (w h : Nat) (rs : Img → Img) (img : Img)
    (hL : 0 < (displayImageOut w h rs img).stream.length) :
    (displayImageOut w h rs img).bursts.length
      = ((displayImageOut w h rs img).stream.length + (chunkSize - 1)) / chunkSize
    ∧ (∀ c ∈ (displayImageOut w h rs img).bursts, c.length ≤ chunkSize)
    ∧ (displayImageOut w h rs img).bursts.flatten = (displayImageOut w h rs img).stream :=
  ⟨sendChunks_length _, sendChunks_le _, sendChunks_flatten _⟩

/-- Witness for C3: a 1×1 solid red frame (stream of 2 bytes). -/
theorem display_chunking_witness :
    0 < (displayImageOut 1 1 id (solidImage 1 1 (255, 0, 0))).stream.length
    ∧ ((displayImageOut 1 1 id (solidImage 1 1 (255, 0, 0))).bursts.length
        = ((displayImageOut 1 1 id (solidImage 1 1 (255, 0, 0))).stream.length
            + (chunkSize - 1)) / chunkSize
      ∧ (∀ c ∈ (displayImageOut 1 1 id (solidImage 1 1 (255, 0, 0))).bursts,
          c.length ≤ chunkSize)
      ∧ (displayImageOut 1 1 id (solidImage 1 1 (255, 0, 0))).bursts.flatten
          = (displayImageOut 1 1 id (solidImage 1 1 (255, 0, 0))).stream) :=
  ⟨by decide, display_chunking 1 1 id (solidImage 1 1 (255, 0, 0)) (by decide)⟩

/-- C8: `clear(color)` produces exactly the output of `display_image` on
a solid full-panel-resolution frame of that color: same window-set
commands, same pixel byte stream (and, concretely, the stream is one
packed pixel's two bytes repeated `height * width` times, with no
resize). -/
theorem clear_solid_frame_equiv (w h : Nat) (rs : Img → Img) (c : Nat × Nat × Nat) :
    clearOut w h rs c = displayImageOut w h rs (solidImage w h c)
    ∧ (clearOut w h rs c).resized = false
    ∧ (clearOut w h rs c).window = (0, 0, w - 1, h - 1)
    ∧ (clearOut w h rs c).stream = (List.replicate (h * w) (pixBytes c)).flatten := by
  refine ⟨rfl, ?_, rfl, ?_⟩
  · simp [clearOut, displayImageOut, solidImage]
  · show pixelStream (if (solidImage w h c).width = w ∧ (solidImage w h c).height = h
        then solidImage w h c else rs (solidImage w h c)) = _
    rw [if_pos ⟨rfl, rfl⟩]
    exact pixelStream_solid w h c

/-- C7 counterexample: with no GPIO backend available the constructor
raises `RuntimeError`, and with a working GPIO backend but a failing SPI
open it propagates the OS error — in no failure case is the raised
exception of the type `InitializationError` the claim names (no such
class exists in the repository). -/
theorem constructDriver_not_initializationError :
    constructDriver ⟨false, false, false, true⟩ = .error .runtimeError
    ∧ constructDriver ⟨true, false, false, true⟩ = .error .runtimeError
    ∧ constructDriver ⟨true, true, true, false⟩ = .error .osError
    ∧ ExcType.runtimeError ≠ ExcType.initializationError
    ∧ ExcType.osError ≠ ExcType.initializationError := by
  decide

/-- C7 as amended: driver construction fails by raising `RuntimeError`
when no usable GPIO backend is available (gpiod importable but no chip
opens, or neither GPIO library importable); when the SPI device cannot
be opened the underlying OS error propagates uncaught; in every such
case construction fails, and the raised exception is never of type
`InitializationError`. -/
theorem constructDriver_failure (env : HostEnv) :
    ((env.gpiodImportOk = true ∧ env.chipOpens = false)
        ∨ (env.gpiodImportOk = false ∧ env.rpiImportOk = false) →
      constructDriver env = .error .runtimeError)
    ∧ (env.spiOpens = false →
        ((env.gpiodImportOk = true ∧ env.chipOpens = true)
          ∨ (env.gpiodImportOk = false ∧ env.rpiImportOk = true)) →
      constructDriver env = .error .osError)
    ∧ constructDriver env ≠ .error .initializationError := by
  obtain ⟨a, b, c, d⟩ := env
  cases a <;> cases b <;> cases c <;> cases d <;> decide

/-- Witness for the amended C7: gpiod importable, no chip opens. -/
theorem constructDriver_failure_witness :
    constructDriver ⟨true, true, false, true⟩ = .error .runtimeError :=
  (constructDriver_failure ⟨true, true, false, true⟩).1 (Or.inl ⟨rfl, rfl⟩)

/-- C4: any exception raised during the THINKING or SPEAKING phase other
than a `KeyboardInterrupt` drives the turn into the error handler (error
face, apology, fixed delay) and the loop continues; every turn begins by
setting the listening face again; the loop only ever exits on a quit
phrase or an interrupt. -/
theorem turn_error_recovery (raw : PyStr) (llmB speakB : Beh)
    (hreach : reachesThinking raw = true) :
    (llmB = .raiseExc →
      runTurn raw llmB speakB
        = ⟨["listening", "thinking", "error"], [.apology], true, .continueLoop⟩)
    ∧ (llmB = .ok → speakB = .raiseExc →
      runTurn raw llmB speakB
        = ⟨["listening", "thinking", "speaking", "error"], [.apology], true, .continueLoop⟩)
    ∧ (∀ s : PyStr, ∀ b1 b2 : Beh, (runTurn s b1 b2).outcome = .exitLoop →
        pyStrip (pyLower (pyStrip s)) ∈ quitWords ∨ b1 = .interrupt ∨ b2 = .interrupt)
    ∧ (∀ s : PyStr, ∀ b1 b2 : Beh, (runTurn s b1 b2).exprs.head? = some "listening") := by
  unfold reachesThinking at hreach
  split_ifs at hreach with h1 h2 h3 h4
  refine ⟨?_, ?_, ?_, ?_⟩
  · intro hb; subst hb
    simp only [runTurn, if_neg h1, if_neg h2, if_neg h3, if_neg h4]
  · intro hb hs; subst hb; subst hs
    simp only [runTurn, if_neg h1, if_neg h2, if_neg h3, if_neg h4]
  · intro s b1 b2 hout
    unfold runTurn at hout
    split_ifs at hout with q1 q2 q3 q4
    all_goals
      first
        | exact Or.inl q3
        | exact absurd hout (by decide)
        | (cases b1 <;> cases b2 <;>
            first
              | exact absurd hout (by decide)
              | exact Or.inr (Or.inl rfl)
              | exact Or.inr (Or.inr rfl))
  · intro s b1 b2
    unfold runTurn
    split_ifs <;> first | rfl | (cases b1 <;> cases b2 <;> rfl)

/-- Witness for C4: the input "hello again" with the model call raising. -/
theorem turn_error_recovery_witness :
    (Beh.raiseExc = Beh.raiseExc →
      runTurn "hello again".toList .raiseExc .ok
        = ⟨["listening", "thinking", "error"], [.apology], true, .continueLoop⟩)
    ∧ (Beh.raiseExc = Beh.ok → Beh.ok = Beh.raiseExc →
      runTurn "hello again".toList .raiseExc .ok
        = ⟨["listening", "thinking", "speaking", "error"], [.apology], true, .continueLoop⟩)
    ∧ (∀ s : PyStr, ∀ b1 b2 : Beh, (runTurn s b1 b2).outcome = .exitLoop →
        pyStrip (pyLower (pyStrip s)) ∈ quitWords ∨ b1 = .interrupt ∨ b2 = .interrupt)
    ∧ (∀ s : PyStr, ∀ b1 b2 : Beh, (runTurn s b1 b2).exprs.head? = some "listening") :=
  turn_error_recovery "hello again".toList .raiseExc .ok (by decide)

/-- C5: when the received input, lowercased and stripped, is the literal
"bye", the turn goes straight to the shutdown path: goodbye face and
farewell, loop exit, with no model call and no thinking or speaking
expression. -/
theorem bye_direct_shutdown (raw : PyStr) (llmB speakB : Beh)
    (h : pyStrip (pyLower (pyStrip raw)) = "bye".toList) :
    runTurn raw llmB speakB = ⟨["listening", "happy"], [.goodbye], false, .exitLoop⟩
    ∧ (runTurn raw llmB speakB).askedLLM = false
    ∧ "thinking" ∉ (runTurn raw llmB speakB).exprs
    ∧ "speaking" ∉ (runTurn raw llmB speakB).exprs := by
  have hne : ¬ pyStrip raw = [] := by
    intro h0
    rw [h0] at h
    exact absurd h (by decide)
  have hnm : ¬ (pyStrip (pyLower (pyStrip raw)) = "text".toList
      ∨ pyStrip (pyLower (pyStrip raw)) = "voice".toList) := by
    rw [h]; decide
  have hq : pyStrip (pyLower (pyStrip raw)) ∈ quitWords := by rw [h]; decide
  have e : runTurn raw llmB speakB
      = ⟨["listening", "happy"], [.goodbye], false, .exitLoop⟩ := by
    simp only [runTurn, if_neg hne, if_neg hnm, if_pos hq]
  refine ⟨e, by rw [e], by rw [e]; decide, by rw [e]; decide⟩

/-- Witness for C5 at the concrete raw input "  Bye  ". -/
theorem bye_direct_shutdown_witness :
    runTurn "  Bye  ".toList .ok .ok
      = ⟨["listening", "happy"], [.goodbye], false, .exitLoop⟩
    ∧ (runTurn "  Bye  ".toList .ok .ok).askedLLM = false
    ∧ "thinking" ∉ (runTurn "  Bye  ".toList .ok .ok).exprs
    ∧ "speaking" ∉ (runTurn "  Bye  ".toList .ok .ok).exprs :=
  bye_direct_shutdown "  Bye  ".toList .ok .ok (by decide)

/-- C6: the gesture-intent classifier is a pure function of the
lowercased input returning at most one tag, with precedence
greeting → celebration → question (the question category matching by
prefix keyword or presence of a question mark); on the four reference
inputs it returns wave, arms-up, point and no tag respectively. -/
theorem gesture_classification :
    (∀ s : PyStr, greetingMatch (pyLower s) = true →
      analyzeGesture s = some Gesture.wave)
    ∧ (∀ s : PyStr, greetingMatch (pyLower s) = false →
        celebrationMatch (pyLower s) = true → analyzeGesture s = some Gesture.armsUp)
    ∧ (∀ s : PyStr, greetingMatch (pyLower s) = false →
        celebrationMatch (pyLower s) = false → questionMatch (pyLower s) = true →
        analyzeGesture s = some Gesture.point)
    ∧ (∀ s : PyStr, greetingMatch (pyLower s) = false →
        celebrationMatch (pyLower s) = false → questionMatch (pyLower s) = false →
        analyzeGesture s = none)
    ∧ analyzeGesture "Hello there!".toList = some Gesture.wave
    ∧ analyzeGesture "That's awesome!".toList = some Gesture.armsUp
    ∧ analyzeGesture "What time is it?".toList = some Gesture.point
    ∧ analyzeGesture "The sky is blue.".toList = none := by
  refine ⟨?_, ?_, ?_, ?_, by decide, by decide, by decide, by decide⟩
  · intro s hg; simp [analyzeGesture, hg]
  · intro s hg hc; simp [analyzeGesture, hg, hc]
  · intro s hg hc hq; simp [analyzeGesture, hg, hc, hq]
  · intro s hg hc hq; simp [analyzeGesture, hg, hc, hq]

/-- Witness for C6 at the concrete input "hi". -/
theorem gesture_classification_witness :
    analyzeGesture "hi".toList = some Gesture.wave :=
  gesture_classification.1 "hi".toList (by decide)

/-- C9: greeting matching is raw substring containment on the lowercased
input, so any input containing a greeting keyword inside a longer word
is classified as a greeting, preempting the other categories. -/
theorem greeting_substring_precedence (s w : PyStr)
    (hw : w ∈ greetingWords) (hsub : containsWord (pyLower s) w = true) :
    analyzeGesture s = some Gesture.wave := by
  have hg : greetingMatch (pyLower s) = true := by
    unfold greetingMatch
    exact List.any_eq_true.mpr ⟨w, hw, hsub⟩
  simp [analyzeGesture, hg]

/-- Witness for C9: "What is this?" contains the keyword "hi" inside
"this" and is classified as a greeting even though the question category
(prefix "what", presence of a question mark) would also match. -/
theorem greeting_substring_precedence_witness :
    analyzeGesture "What is this?".toList = some Gesture.wave :=
  greeting_substring_precedence "What is this?".toList "hi".toList
    (by decide) (by decide)

/-- C10: `set_expression` with an unknown expression name, or with a
name whose image is not in the cache, returns `False`, performs no
display write and leaves the state (including `current_expression`)
unchanged, regardless of backend. -/
theorem set_expression_rejects (backend : FDBackend) (s : FaceState) (e : String)
    (h : e ∉ EXPRESSIONS ∨ e ∉ s.cache) :
    setExpression backend s e = ⟨false, s, []⟩ := by
  rcases h with h | h
  · simp [setExpression, h]
  · rcases Decidable.em (e ∈ EXPRESSIONS) with h2 | h2 <;> simp [setExpression, h, h2]

/-- Witness for C10: the unknown expression name "angry". -/
theorem set_expression_rejects_witness :
    setExpression (.framebuffer true) ⟨["happy"], none⟩ "angry"
      = ⟨false, ⟨["happy"], none⟩, []⟩ :=
  set_expression_rejects (.framebuffer true) ⟨["happy"], none⟩ "angry"
    (Or.inl (by decide))

end Ash

